import Mathlib

/-!
Verification of the roadmap-generation pipeline in
`src/lambda-functions/task2-bedrock-ai-lambda/lambda_function.py`.

The Python source is shallowly embedded: Python values are modelled by
`PyVal`, raised exceptions by `Except PyError`, strings by `List Char`,
and the external Bedrock model invocation (lines 123-130, the
ModelInvoker boundary of spec section 4.3) by a function parameter
`invoke : List Char → Except PyError (List Char)` mapping the prompt to
the raw model reply text or a raised exception.  The number of calls to
`invoke` is threaded explicitly so that "the model is never invoked" is
a provable statement.
-/

namespace Bharat

/-- Python exceptions that the embedded code can raise, each carrying
the message that `str(e)` would produce. -/
inductive PyError where
  | valueError (msg : List Char)
  | typeError (msg : List Char)
  | jsonDecodeError (msg : List Char)

/-- Python `str(e)` on an embedded exception: its message. -/
def PyError.msg : PyError → List Char
  | .valueError m => m
  | .typeError m => m
  | .jsonDecodeError m => m

/-- Python values, covering exactly the shapes that flow through the
lambda: `None`, booleans, ints, floats (modelled as rationals), strings,
lists, and string-keyed dicts (as association lists). -/
inductive PyVal where
  | none
  | bool (b : Bool)
  | int (n : Int)
  | float (q : Rat)
  | str (s : List Char)
  | list (xs : List PyVal)
  | dict (kvs : List (List Char × PyVal))

/-- Boolean prefix test on character lists (Python `s.startswith` /
the match step of `str.find`). -/
def prefB : List Char → List Char → Bool
  | [], _ => true
  | _ :: _, [] => false
  | a :: u, b :: v => a == b && prefB u v

/-- The needle `sub` occurs in `s` at index `i`. -/
def occursAt (s sub : List Char) (i : Nat) : Prop :=
  prefB sub (s.drop i) = true

instance (s sub : List Char) (i : Nat) : Decidable (occursAt s sub i) := by
  unfold occursAt; infer_instance

/-- Scan of `str.find`: `t` is the suffix of the haystack starting at
index `i`; returns the least index `≥ i` at which `sub` occurs. -/
def findOccur (sub : List Char) : List Char → Nat → Option Nat
  | [], i => if sub.isEmpty then some i else Option.none
  | c :: rest, i =>
      if prefB sub (c :: rest) then some i else findOccur sub rest (i + 1)

/-- Python `s.find(sub, start)`: least index `≥ start` where `sub`
occurs in `s`, and `-1` when there is none (or `start` is out of
range). -/
def pyFindFrom (s sub : List Char) (start : Nat) : Int :=
  if s.length < start then -1
  else
    match findOccur sub (s.drop start) start with
    | some i => (i : Int)
    | Option.none => -1

/-- Python slice `s[a:b]` for int indices: negative indices count from
the end, out-of-range indices are clamped, and the result is empty when
the adjusted start is at or past the adjusted end. -/
def pySlice (s : List Char) (a b : Int) : List Char :=
  let n : Int := (s.length : Int)
  let a' : Int := if a < 0 then max 0 (n + a) else min a n
  let b' : Int := if b < 0 then max 0 (n + b) else min b n
  (s.take b'.toNat).drop a'.toNat

/-- The whitespace set of Python `str.strip()` (ASCII part). -/
def pyIsSpace (c : Char) : Bool :=
  c == ' ' || c == '\t' || c == '\n' || c == '\x0d' || c == '\x0b' || c == '\x0c'

/-- Python `s.strip()`: drop whitespace from both ends. -/
def pyStrip (s : List Char) : List Char :=
  List.rdropWhile pyIsSpace (List.dropWhile pyIsSpace s)

/-- The JSON-tagged fence delimiter (7 characters). -/
def fenceJson : List Char := "```json".toList

/-- The plain fence delimiter (3 characters). -/
def fence : List Char := "```".toList

/-- ResponseExtractor (spec 4.4), lines 214-223 of the source: isolate
the candidate JSON substring from a possibly markdown-wrapped reply.
`"```json" in r` is Python substring containment, i.e. `find ≥ 0`. -/
def extract (ai_response : List Char) : List Char :=
  if 0 ≤ pyFindFrom ai_response fenceJson 0 then
    let start : Int := pyFindFrom ai_response fenceJson 0 + 7
    let e : Int := pyFindFrom ai_response fence start.toNat
    pyStrip (pySlice ai_response start e)
  else if 0 ≤ pyFindFrom ai_response fence 0 then
    let start : Int := pyFindFrom ai_response fence 0 + 3
    let e : Int := pyFindFrom ai_response fence start.toNat
    pyStrip (pySlice ai_response start e)
  else
    pyStrip ai_response

/-! ### A model of Python `json.loads`

A recursive-descent JSON reader producing `PyVal`, faithful to the
grammar accepted by Python's `json` module on the inputs this pipeline
sees: objects, arrays, strings with the standard escapes, numbers
(ints versus floats distinguished as Python does), `true`/`false`/
`null`, with the four JSON whitespace characters skipped between
tokens, duplicate object keys resolved last-wins, and trailing
non-whitespace rejected.  Recursion is fueled; `json_loads` supplies
ample fuel. -/

/-- JSON inter-token whitespace. -/
def jsonWs (c : Char) : Bool :=
  c == ' ' || c == '\t' || c == '\n' || c == '\x0d'

/-- Skip JSON whitespace. -/
def skipWs (s : List Char) : List Char := s.dropWhile jsonWs

/-- Insert a key into an object under construction, last value wins
(Python dict semantics for duplicate JSON keys). -/
def dictInsert (kvs : List (List Char × PyVal)) (k : List Char) (v : PyVal) :
    List (List Char × PyVal) :=
  kvs.filter (fun kv => !(kv.1 == k)) ++ [(k, v)]

/-- Hex digit value, if any. -/
def hexVal (c : Char) : Option Nat :=
  if '0' ≤ c ∧ c ≤ '9' then some (c.toNat - '0'.toNat)
  else if 'a' ≤ c ∧ c ≤ 'f' then some (c.toNat - 'a'.toNat + 10)
  else if 'A' ≤ c ∧ c ≤ 'F' then some (c.toNat - 'A'.toNat + 10)
  else Option.none

/-- Read the body of a JSON string after the opening quote; returns the
decoded characters and the remaining input after the closing quote. -/
def parseJString : Nat → List Char → Except PyError (List Char × List Char)
  | 0, _ => .error (.jsonDecodeError ("Unterminated string".toList))
  | _ + 1, [] => .error (.jsonDecodeError ("Unterminated string".toList))
  | n + 1, c :: rest =>
    if c = '"' then .ok ([], rest)
    else if c = '\\' then
      match rest with
      | [] => .error (.jsonDecodeError ("Unterminated string".toList))
      | e :: rest2 =>
        if e = 'u' then
          match rest2 with
          | h1 :: h2 :: h3 :: h4 :: rest3 =>
            match hexVal h1, hexVal h2, hexVal h3, hexVal h4 with
            | some a, some b, some c3, some d =>
              match parseJString n rest3 with
              | .ok (cs, r) =>
                  .ok (Char.ofNat (((a * 16 + b) * 16 + c3) * 16 + d) :: cs, r)
              | .error err => .error err
            | _, _, _, _ => .error (.jsonDecodeError ("Invalid \\uXXXX escape".toList))
          | _ => .error (.jsonDecodeError ("Invalid \\uXXXX escape".toList))
        else
          match
            (if e = '"' then some '"'
             else if e = '\\' then some '\\'
             else if e = '/' then some '/'
             else if e = 'b' then some '\x08'
             else if e = 'f' then some '\x0c'
             else if e = 'n' then some '\n'
             else if e = 'r' then some '\x0d'
             else if e = 't' then some '\t'
             else Option.none) with
          | some d =>
            match parseJString n rest2 with
            | .ok (cs, r) => .ok (d :: cs, r)
            | .error err => .error err
          | Option.none => .error (.jsonDecodeError ("Invalid \\escape".toList))
    else if c.toNat < 32 then
      .error (.jsonDecodeError ("Invalid control character".toList))
    else
      match parseJString n rest with
      | .ok (cs, r) => .ok (c :: cs, r)
      | .error err => .error err

/-- Fold decimal digits into a natural number. -/
def digitsToNat (ds : List Char) : Nat :=
  ds.foldl (fun acc c => acc * 10 + (c.toNat - '0'.toNat)) 0

/-- Ten to an integer power, as a rational. -/
def ratPow10 (e : Int) : Rat :=
  if 0 ≤ e then ((10 : Rat) ^ e.toNat) else 1 / ((10 : Rat) ^ (-e).toNat)

/-- Read a JSON number (int part without leading zeros; fraction and
exponent only when well-formed, as Python's number regex matches).
Returns a `PyVal.int` when there is no fraction and no exponent, a
`PyVal.float` otherwise. -/
def parseJNumber (s : List Char) : Except PyError (PyVal × List Char) :=
  let (sign, s1) : Int × List Char :=
    match s with
    | '-' :: r => (-1, r)
    | _ => (1, s)
  let (ipDigits, s2) : List Char × List Char :=
    match s1 with
    | '0' :: r => (['0'], r)
    | _ => (s1.takeWhile Char.isDigit, s1.dropWhile Char.isDigit)
  if ipDigits.isEmpty then .error (.jsonDecodeError ("Expecting value".toList))
  else
    let (frDigits, s3) : List Char × List Char :=
      match s2 with
      | '.' :: r =>
        if (r.takeWhile Char.isDigit).isEmpty then ([], s2)
        else (r.takeWhile Char.isDigit, r.dropWhile Char.isDigit)
      | _ => ([], s2)
    let (expPart, s4) : Option Int × List Char :=
      match s3 with
      | e :: r =>
        if e = 'e' ∨ e = 'E' then
          let (esign, r2) : Int × List Char :=
            match r with
            | '+' :: r3 => (1, r3)
            | '-' :: r3 => (-1, r3)
            | _ => (1, r)
          if (r2.takeWhile Char.isDigit).isEmpty then (Option.none, s3)
          else (some (esign * (digitsToNat (r2.takeWhile Char.isDigit) : Int)),
                r2.dropWhile Char.isDigit)
        else (Option.none, s3)
      | [] => (Option.none, s3)
    match frDigits, expPart with
    | [], Option.none => .ok (.int (sign * (digitsToNat ipDigits : Int)), s4)
    | _, _ =>
      let mant : Rat :=
        (digitsToNat ipDigits : Rat) +
          (digitsToNat frDigits : Rat) / ((10 : Rat) ^ frDigits.length)
      let ex : Int := expPart.getD 0
      .ok (.float ((sign : Rat) * mant * ratPow10 ex), s4)

mutual

/-- Read one JSON value; returns it with the remaining input. -/
def parseJValue : Nat → List Char → Except PyError (PyVal × List Char)
  | 0, _ => .error (.jsonDecodeError ("Expecting value".toList))
  | n + 1, s =>
    match skipWs s with
    | [] => .error (.jsonDecodeError ("Expecting value".toList))
    | c :: rest =>
      if c = '"' then
        match parseJString n rest with
        | .ok (cs, r) => .ok (.str cs, r)
        | .error err => .error err
      else if c = '[' then
        match skipWs rest with
        | ']' :: r2 => .ok (.list [], r2)
        | r2 => parseJItems n r2 []
      else if c = '{' then
        match skipWs rest with
        | '}' :: r2 => .ok (.dict [], r2)
        | r2 => parseJMembers n r2 []
      else if c = 't' then
        match rest with
        | 'r' :: 'u' :: 'e' :: r2 => .ok (.bool true, r2)
        | _ => .error (.jsonDecodeError ("Expecting value".toList))
      else if c = 'f' then
        match rest with
        | 'a' :: 'l' :: 's' :: 'e' :: r2 => .ok (.bool false, r2)
        | _ => .error (.jsonDecodeError ("Expecting value".toList))
      else if c = 'n' then
        match rest with
        | 'u' :: 'l' :: 'l' :: r2 => .ok (.none, r2)
        | _ => .error (.jsonDecodeError ("Expecting value".toList))
      else if c = '-' ∨ c.isDigit then parseJNumber (c :: rest)
      else .error (.jsonDecodeError ("Expecting value".toList))

/-- Read the items of a non-empty JSON array up to `]`. -/
def parseJItems : Nat → List Char → List PyVal → Except PyError (PyVal × List Char)
  | 0, _, _ => .error (.jsonDecodeError ("Expecting value".toList))
  | n + 1, s, acc =>
    match parseJValue n s with
    | .error err => .error err
    | .ok (v, r) =>
      match skipWs r with
      | ',' :: r2 => parseJItems n r2 (acc ++ [v])
      | ']' :: r2 => .ok (.list (acc ++ [v]), r2)
      | _ => .error (.jsonDecodeError ("Expecting comma delimiter".toList))

/-- Read the members of a non-empty JSON object up to the closing
brace. -/
def parseJMembers : Nat → List Char → List (List Char × PyVal) →
    Except PyError (PyVal × List Char)
  | 0, _, _ => .error (.jsonDecodeError ("Expecting value".toList))
  | n + 1, s, acc =>
    match skipWs s with
    | '"' :: r =>
      match parseJString n r with
      | .error err => .error err
      | .ok (k, r2) =>
        match skipWs r2 with
        | ':' :: r3 =>
          match parseJValue n r3 with
          | .error err => .error err
          | .ok (v, r4) =>
            match skipWs r4 with
            | ',' :: r5 => parseJMembers n r5 (dictInsert acc k v)
            | '}' :: r5 => .ok (.dict (dictInsert acc k v), r5)
            | _ => .error (.jsonDecodeError ("Expecting comma delimiter".toList))
        | _ => .error (.jsonDecodeError ("Expecting colon delimiter".toList))
    | _ =>
      .error (.jsonDecodeError
        ("Expecting property name enclosed in double quotes".toList))

end

/-- Model of Python `json.loads`: parse one JSON document, allowing
surrounding whitespace and nothing else. -/
def json_loads (s : List Char) : Except PyError PyVal :=
  match parseJValue (2 * s.length + 4) s with
  | .error err => .error err
  | .ok (v, rest) =>
    if skipWs rest = [] then .ok v
    else .error (.jsonDecodeError ("Extra data".toList))

/-! ### Python semantics helpers used by the lambda -/

/-- Python `==` between a string and an arbitrary value (used by `in`
on lists): true only for an equal string. -/
def pyEqStr (needle : List Char) : PyVal → Bool
  | .str s => s == needle
  | _ => false

/-- Python's `needle in v` for a string needle: key lookup for dicts,
element equality for lists, substring containment for strings, and a
`TypeError` for non-container values. -/
def pyIn (needle : List Char) : PyVal → Except PyError Bool
  | .dict kvs => .ok (kvs.any (fun kv => kv.1 == needle))
  | .list xs => .ok (xs.any (pyEqStr needle))
  | .str s => .ok (decide (0 ≤ pyFindFrom s needle 0))
  | _ => .error (.typeError ("argument is not iterable".toList))

/-- Python truthiness (`if not x`). -/
def pyTruthy : PyVal → Bool
  | .none => false
  | .bool b => b
  | .int n => !(n == 0)
  | .float q => !(q == 0)
  | .str s => !s.isEmpty
  | .list xs => !xs.isEmpty
  | .dict kvs => !kvs.isEmpty

/-- Python `isinstance(v, list)`. -/
def isListVal : PyVal → Bool
  | .list _ => true
  | _ => false

/-- Python `isinstance(v, (int, float))` — in Python `bool` is a subclass of
`int`, so booleans count as numeric. -/
def isNumeric : PyVal → Bool
  | .int _ => true
  | .float _ => true
  | .bool _ => true
  | _ => false

/-- Is the value a keyed structure (a dict)? -/
def isKeyed : PyVal → Bool
  | .dict _ => true
  | _ => false

/-- Numeric value of a Python number (`True` counts as 1). -/
def numToRat : PyVal → Rat
  | .int n => (n : Rat)
  | .float q => q
  | .bool b => if b then 1 else 0
  | _ => 0

/-- The items of a Python list value. -/
def listItems : PyVal → List PyVal
  | .list xs => xs
  | _ => []

/-- Python `dict.get(k)` on a string-keyed dict. -/
def assocGet (d : List (List Char × PyVal)) (k : List Char) : Option PyVal :=
  match d.find? (fun kv => kv.1 == k) with
  | some kv => some kv.2
  | Option.none => Option.none

/-- Python `", ".join(xs)`: raises `TypeError` unless every element is
a string. -/
def pyJoin (sep : List Char) (xs : List PyVal) : Except PyError (List Char) :=
  match xs.mapM (fun v =>
      match v with
      | PyVal.str s => Except.ok s
      | _ => Except.error (PyError.typeError
          ("sequence item: expected str instance".toList))) with
  | .ok ss => .ok (List.intercalate sep ss)
  | .error e => .error e

/-! ### The pipeline stages (lambda_function.py) -/

/-- The key `'roadmap'`. -/
def roadmapKey : List Char := "roadmap".toList

/-- LevelClassifier, lines 84-89: map a solved-problem count to a
skill tier. Python numbers are modelled as rationals. -/
def determine_user_level (total_solved : Rat) : List Char :=
  if total_solved < 50 then "Beginner".toList
  else if total_solved < 200 then "Intermediate".toList
  else "Advanced".toList

/-- Prompt template up to the interpolated `{user_level}` (line 155). -/
def promptPart1 : List Char :=
  ("You are an expert competitive programming mentor specializing in LeetCode preparation.\n\nUser Profile:\n- Skill Level: ").toList

/-- Prompt template between `{user_level}` and `{topics_str}`. -/
def promptPart2 : List Char := ("\n- Weak Topics: ").toList

/-- Prompt template after `{topics_str}` (braces written as their
character codes; `\x7b\x7b` in the Python f-string renders as one
literal brace). -/
def promptPart3 : List Char :=
  ("\n\nTask: Generate a structured 7-day learning roadmap to help this user improve their weak topics.\n\nRequirements:\n1. Focus on the weak topics provided\n2. Provide 2-3 specific problem recommendations per day\n3. Include topic-wise recommendations (which concepts to study)\n4. Provide learning resources (no full solutions, only conceptual guidance)\n5. Ensure progressive difficulty (start easier, build up)\n6. Include daily goals and milestones\n\nReturn your response in the following JSON format:\n\x7b\n  \"roadmap\": [\n    \x7b\n      \"day\": 1,\n      \"focus_topic\": \"Topic name\",\n      \"daily_goal\": \"What to achieve today\",\n      \"problems\": [\n        \x7b\n          \"title\": \"Problem name\",\n          \"difficulty\": \"Easy/Medium/Hard\",\n          \"key_concept\": \"Main concept to learn\",\n          \"approach_hint\": \"High-level approach (no code)\"\n        \x7d\n      ],\n      \"study_resources\": [\n        \"Resource 1: Brief description\",\n        \"Resource 2: Brief description\"\n      ]\n    \x7d\n  ],\n  \"overall_strategy\": \"Brief overview of the 7-day plan\",\n  \"success_metrics\": \"How to measure progress\"\n\x7d\n\nImportant: Return ONLY valid JSON, no additional text or markdown formatting.").toList

/-- PromptBuilder, lines 142-198: render the instruction template.
`", ".join(weak_topics)` raises `TypeError` when an element is not a
string, so the result is fallible. -/
def build_prompt (weak_topics : List PyVal) (user_level : List Char) :
    Except PyError (List Char) :=
  match pyJoin (", ".toList) weak_topics with
  | .error e => .error e
  | .ok topics_str =>
      .ok (promptPart1 ++ user_level ++ promptPart2 ++ topics_str ++ promptPart3)

/-- ResponseValidator, lines 225-236: parse the candidate substring and
check the envelope.  `json.loads` failures (`JSONDecodeError`) are
caught by the `except` clause and re-raised as
`ValueError("Invalid JSON response from AI: ...")`; the membership test
`'roadmap' in roadmap` follows Python `in` semantics and a `TypeError`
it raises escapes uncaught (the `except` clause only catches
`JSONDecodeError`); a failed membership test raises
`ValueError("Response missing 'roadmap' field")`, which also escapes
(it is not a `JSONDecodeError`). -/
def validate_candidate (json_str : List Char) : Except PyError PyVal :=
  match json_loads json_str with
  | .error (.jsonDecodeError m) =>
      .error (.valueError (("Invalid JSON response from AI: ").toList ++ m))
  | .error e => .error e
  | .ok roadmap =>
    match pyIn roadmapKey roadmap with
    | .error e => .error e
    | .ok true => .ok roadmap
    | .ok false =>
        .error (.valueError ("Response missing 'roadmap' field".toList))

/-- Lines 201-236: extract the candidate JSON substring from the raw
reply, then parse and validate it. -/
def parse_ai_response (ai_response : List Char) : Except PyError PyVal :=
  validate_candidate (extract ai_response)

/-- Lines 92-139: build the prompt, invoke the model (the abstracted
ModelInvoker boundary), and parse its reply.  On any exception the
source logs and re-raises, so errors pass through unchanged.  The
second component counts the calls made to `invoke`. -/
def generate_learning_roadmap (invoke : List Char → Except PyError (List Char))
    (weak_topics : List PyVal) (user_level : List Char) :
    Except PyError PyVal × Nat :=
  match build_prompt weak_topics user_level with
  | .error e => (.error e, 0)
  | .ok prompt =>
    match invoke prompt with
    | .error e => (.error e, 1)
    | .ok ai_response => (parse_ai_response ai_response, 1)

/-- The lambda's return value: an HTTP-ish status code and the body
dict (the `json.dumps` serialization boundary is left at the structure
level). -/
structure HandlerResult where
  statusCode : Nat
  body : PyVal

/-- Lines 239-256: the standardized error envelope.  `now` stands for
`datetime.utcnow().isoformat()`, passed in explicitly. -/
def error_response (status_code : Nat) (message : List Char) (now : List Char) :
    HandlerResult :=
  ⟨status_code,
   .dict [("error".toList, .str message), ("timestamp".toList, .str now)]⟩

/-- The key `'weak_topics'`. -/
def wkKey : List Char := "weak_topics".toList

/-- The key `'total_solved'`. -/
def tsKey : List Char := "total_solved".toList

/-- Line 36: `event.get('weak_topics', [])`. -/
def eventWeakTopics (event : List (List Char × PyVal)) : PyVal :=
  (assocGet event wkKey).getD (.list [])

/-- Line 37: `event.get('total_solved', 0)`. -/
def eventTotalSolved (event : List (List Char × PyVal)) : PyVal :=
  (assocGet event tsKey).getD (.int 0)

/-- Error message for empty/absent weak topics (line 41). -/
def emptyWkMsg : List Char := "weak_topics is required and cannot be empty".toList

/-- Error message for a non-list weak topics (line 44). -/
def notListMsg : List Char := "weak_topics must be a list".toList

/-- Error message for a non-numeric total solved (line 47). -/
def notNumMsg : List Char := "total_solved must be a number".toList

/-- Prefix of the catch-all error message (line 71). -/
def internalPrefix : List Char := "Internal server error: ".toList

/-- Success message (line 60). -/
def successMsg : List Char := "Learning roadmap generated successfully".toList

/-- Orchestrator, lines 24-71: validate the input, classify the user,
generate the roadmap, and wrap the outcome.  `invoke` is the
ModelInvoker boundary, `now` the clock reading, `event` the input dict;
the second component counts model invocations. -/
def lambda_handler (invoke : List Char → Except PyError (List Char))
    (now : List Char) (event : List (List Char × PyVal)) :
    HandlerResult × Nat :=
  let weak_topics := eventWeakTopics event
  let total_solved := eventTotalSolved event
  if !pyTruthy weak_topics then (error_response 400 emptyWkMsg now, 0)
  else if !isListVal weak_topics then (error_response 400 notListMsg now, 0)
  else if !isNumeric total_solved then (error_response 400 notNumMsg now, 0)
  else
    let user_level := determine_user_level (numToRat total_solved)
    match generate_learning_roadmap invoke (listItems weak_topics) user_level with
    | (.ok roadmap, n) =>
      (⟨200, .dict
        [("message".toList, .str successMsg),
         ("user_level".toList, .str user_level),
         ("total_solved".toList, total_solved),
         (wkKey, weak_topics),
         (roadmapKey, roadmap),
         ("generated_at".toList, .str now)]⟩, n)
    | (.error e, n) => (error_response 500 (internalPrefix ++ e.msg) now, n)

/-! ### Concrete data used in witnesses and counterexamples -/

/-- A well-formed model reply: `{"roadmap": []}`. -/
def goodReply : List Char := "\x7b\"roadmap\": []\x7d".toList

/-- A model reply that is the JSON string literal `"roadmap"`. -/
def strReply : List Char := "\"roadmap\"".toList

/-- The Python string `roadmap` (the parse of `strReply`). -/
def roadmapChars : List Char := "roadmap".toList

/-- A stub ModelInvoker returning a well-formed reply. -/
def goodInvoke : List Char → Except PyError (List Char) := fun _ => .ok goodReply

/-- A stub ModelInvoker returning the JSON string literal reply. -/
def badInvoke : List Char → Except PyError (List Char) := fun _ => .ok strReply

/-- A stub ModelInvoker that raises. -/
def failInvoke : List Char → Except PyError (List Char) :=
  fun _ => .error (.typeError ("boom".toList))

/-- A fixed clock reading. -/
def ts0 : List Char := "2026-10-12T00:00:00".toList

/-- Input event `{"weak_topics": ["Dynamic Programming"], "total_solved": 150}`. -/
def ev150 : List (List Char × PyVal) :=
  [(wkKey, .list [.str ("Dynamic Programming".toList)]), (tsKey, .int 150)]

/-- Input event with `weak_topics` present but no `total_solved` key. -/
def evNoTotal : List (List Char × PyVal) :=
  [(wkKey, .list [.str ("Arrays".toList)])]

/-- Input event whose `total_solved` is the string `"many"`. -/
def evBadTotal : List (List Char × PyVal) :=
  [(wkKey, .list [.str ("Arrays".toList)]), (tsKey, .str ("many".toList))]

/-- Input event with an explicitly empty `weak_topics` list. -/
def evEmptyWk : List (List Char × PyVal) :=
  [(wkKey, .list []), (tsKey, .int 10)]

/-- A reply wrapping the JSON in a tagged fence with prose around it. -/
def fencedReply : List Char :=
  "Sure!\n```json\n\x7b\"roadmap\": []\x7d\n```\nEnjoy".toList

/-- A reply with an opening tagged fence and no closing fence. -/
def unclosedReply : List Char := "```json \x7b\"roadmap\": []\x7d".toList

/-- A clean reply with no fences and some surrounding whitespace. -/
def cleanReply : List Char := "  \x7b\"roadmap\": []\x7d \n".toList

/-! ### Occurrence and find lemmas -/

/-- The test `prefB` is the prefix relation. -/
theorem prefB_iff (u : List Char) : ∀ v, prefB u v = true ↔ ∃ w, v = u ++ w := by
  induction u with
  | nil => intro v; simp [prefB]
  | cons a u ih =>
    intro v
    cases v with
    | nil =>
      constructor
      · intro h; simp [prefB] at h
      · rintro ⟨w, hw⟩; simp at hw
    | cons b v =>
      simp only [prefB, Bool.and_eq_true, beq_iff_eq, ih, List.cons_append,
        List.cons.injEq]
      constructor
      · rintro ⟨rfl, w, rfl⟩; exact ⟨w, rfl, rfl⟩
      · rintro ⟨w, rfl, rfl⟩; exact ⟨rfl, w, rfl⟩

/-- A nonempty needle occurring at `i` lies entirely inside `s`. -/
theorem occursAt_len {s sub : List Char} {i : Nat} (hsub : sub ≠ [])
    (h : occursAt s sub i) : i + sub.length ≤ s.length := by
  rw [occursAt, prefB_iff] at h
  obtain ⟨w, hw⟩ := h
  have hlen : s.length - i = sub.length + w.length := by
    have := congrArg List.length hw
    simpa using this
  rcases Nat.le_total i s.length with hle | hgt
  · omega
  · exfalso
    have hnil : s.drop i = [] := List.drop_eq_nil_of_le hgt
    rw [hnil] at hw
    exact hsub (List.append_eq_nil.mp hw.symm).1

/-- A nonempty needle occurring at `i` forces `i < s.length`. -/
theorem occursAt_lt {s sub : List Char} {i : Nat} (hsub : sub ≠ [])
    (h : occursAt s sub i) : i < s.length := by
  have h1 := occursAt_len hsub h
  have h2 : 0 < sub.length := List.length_pos.mpr hsub
  omega

/-- The scan `findOccur` finds the least occurrence. -/
theorem findOccur_some (sub : List Char) :
    ∀ (t : List Char) (i e : Nat), prefB sub (t.drop e) = true →
      (∀ k, k < e → prefB sub (t.drop k) = false) →
      findOccur sub t i = some (i + e) := by
  intro t
  induction t with
  | nil =>
    intro i e h1 h2
    cases sub with
    | nil =>
      have he : e = 0 := by
        by_contra hne
        have h0 := h2 0 (Nat.pos_of_ne_zero hne)
        simp [prefB] at h0
      subst he
      simp [findOccur, List.isEmpty]
    | cons c u =>
      rw [List.drop_nil] at h1
      simp [prefB] at h1
  | cons c rest ih =>
    intro i e h1 h2
    cases e with
    | zero =>
      rw [List.drop_zero] at h1
      simp [findOccur, h1]
    | succ e' =>
      have h0 : prefB sub (c :: rest) = false := by
        have := h2 0 (Nat.succ_pos _)
        simpa using this
      rw [findOccur, if_neg (by simp [h0])]
      have hrec := ih (i + 1) e' (by simpa using h1)
        (fun k hk => by simpa using h2 (k + 1) (Nat.succ_lt_succ hk))
      rw [hrec]
      congr 1
      omega

/-- The scan `findOccur` fails when the needle never occurs. -/
theorem findOccur_none (sub : List Char) (hsub : sub ≠ []) :
    ∀ (t : List Char) (i : Nat), (∀ k, prefB sub (t.drop k) = false) →
      findOccur sub t i = Option.none := by
  intro t
  induction t with
  | nil =>
    intro i _
    cases sub with
    | nil => exact absurd rfl hsub
    | cons c u => simp [findOccur, List.isEmpty]
  | cons c rest ih =>
    intro i h
    have h0 : prefB sub (c :: rest) = false := by simpa using h 0
    rw [findOccur, if_neg (by simp [h0])]
    exact ih (i + 1) (fun k => by simpa using h (k + 1))

/-- Characterization of Python `find` at a least occurrence. -/
theorem pyFindFrom_eq {s sub : List Char} {start e : Nat} (hsub : sub ≠ [])
    (h1 : occursAt s sub e) (h2 : start ≤ e)
    (h3 : ∀ i, i < e → start ≤ i → ¬ occursAt s sub i) :
    pyFindFrom s sub start = (e : Int) := by
  have hel : e < s.length := occursAt_lt hsub h1
  rw [pyFindFrom, if_neg (by omega)]
  have hfo := findOccur_some sub (s.drop start) start (e - start) ?_ ?_
  · rw [hfo]
    show ((start + (e - start) : Nat) : Int) = (e : Int)
    omega
  · rw [List.drop_drop]
    have h4 : start + (e - start) = e := by omega
    rw [h4]
    exact h1
  · intro k hk
    rw [List.drop_drop]
    have hks : start + k < e := by omega
    have h5 := h3 (start + k) hks (by omega)
    rw [occursAt] at h5
    simp only [Bool.not_eq_true] at h5
    exact h5

/-- Python `find` returns `-1` when the needle does not occur at or
after `start`. -/
theorem pyFindFrom_neg {s sub : List Char} {start : Nat} (hsub : sub ≠ [])
    (h : ∀ i, start ≤ i → ¬ occursAt s sub i) :
    pyFindFrom s sub start = -1 := by
  rw [pyFindFrom]
  split
  · rfl
  · rw [findOccur_none sub hsub (s.drop start) start ?_]
    intro k
    rw [List.drop_drop]
    have h5 := h (start + k) (by omega)
    rw [occursAt] at h5
    simp only [Bool.not_eq_true] at h5
    exact h5

/-- The needle `sub` first occurs in `s` at index `e` among indices
`≥ a`. -/
def firstOccurFrom (s sub : List Char) (a e : Nat) : Prop :=
  a ≤ e ∧ occursAt s sub e ∧ ∀ i, i < e → a ≤ i → ¬ occursAt s sub i

instance (s sub : List Char) (a e : Nat) : Decidable (firstOccurFrom s sub a e) := by
  unfold firstOccurFrom; infer_instance

/-- An occurrence of the tagged delimiter is an occurrence of the plain
delimiter (the latter is a prefix of the former). -/
theorem occursAt_fence_of_fenceJson {s : List Char} {i : Nat}
    (h : occursAt s fenceJson i) : occursAt s fence i := by
  rw [occursAt, prefB_iff] at h ⊢
  obtain ⟨w, hw⟩ := h
  exact ⟨("json".toList) ++ w, by rw [hw]; rfl⟩

/-- Slicing with in-range nonnegative endpoints is take-then-drop. -/
theorem pySlice_nonneg {s : List Char} {a b : Nat} (ha : a ≤ s.length)
    (hb : b ≤ s.length) :
    pySlice s (a : Int) (b : Int) = (s.take b).drop a := by
  simp only [pySlice]
  rw [if_neg (by omega), if_neg (by omega)]
  rw [min_eq_left (by exact_mod_cast ha), min_eq_left (by exact_mod_cast hb)]
  have h1 : ((a : Int)).toNat = a := by omega
  have h2 : ((b : Int)).toNat = b := by omega
  rw [h1, h2]

/-- Slicing with end `-1` drops the final character. -/
theorem pySlice_neg_one {s : List Char} {a : Nat} (ha : a ≤ s.length)
    (h0 : s ≠ []) :
    pySlice s (a : Int) (-1) = (s.take (s.length - 1)).drop a := by
  have hl : 1 ≤ s.length := List.length_pos.mpr h0
  simp only [pySlice]
  rw [if_neg (by omega), if_pos (by omega)]
  rw [min_eq_left (by exact_mod_cast ha)]
  have h1 : ((a : Int)).toNat = a := by omega
  have h2 : (max 0 ((s.length : Int) + (-1))).toNat = s.length - 1 := by omega
  rw [h1, h2]

/-- First ordered check of the extractor: a tagged fence is present and
a closing delimiter follows it. -/
theorem extract_tagged {s : List Char} {j e : Nat}
    (hj : firstOccurFrom s fenceJson 0 j)
    (he : firstOccurFrom s fence (j + 7) e) :
    extract s = pyStrip ((s.take e).drop (j + 7)) := by
  obtain ⟨-, hj2, hj3⟩ := hj
  obtain ⟨he1, he2, he3⟩ := he
  have hfj : pyFindFrom s fenceJson 0 = (j : Int) :=
    pyFindFrom_eq (by decide) hj2 (Nat.zero_le _)
      (fun i hi _ => hj3 i hi (Nat.zero_le _))
  have hjlen : j + 7 ≤ s.length := by
    have := occursAt_len (by decide) hj2
    simpa [fenceJson] using this
  have hfe : pyFindFrom s fence (j + 7) = (e : Int) :=
    pyFindFrom_eq (by decide) he2 he1 he3
  have helen : e < s.length := occursAt_lt (by decide) he2
  rw [extract,
    if_pos (show (0 : Int) ≤ pyFindFrom s fenceJson 0 by
      rw [hfj]; exact Int.ofNat_nonneg j)]
  simp only [hfj]
  have ht : ((j : Int) + 7).toNat = j + 7 := by omega
  rw [ht, hfe]
  have hc : ((j : Int) + 7) = ((j + 7 : Nat) : Int) := by omega
  rw [hc, pySlice_nonneg hjlen (by omega)]

/-- Second ordered check: no tagged fence, but a plain fence with a
second delimiter after it. -/
theorem extract_untagged {s : List Char} {j e : Nat}
    (hnoj : ∀ i, ¬ occursAt s fenceJson i)
    (hj : firstOccurFrom s fence 0 j)
    (he : firstOccurFrom s fence (j + 3) e) :
    extract s = pyStrip ((s.take e).drop (j + 3)) := by
  obtain ⟨-, hj2, hj3⟩ := hj
  obtain ⟨he1, he2, he3⟩ := he
  have hfnoj : pyFindFrom s fenceJson 0 = -1 :=
    pyFindFrom_neg (by decide) (fun i _ => hnoj i)
  have hfj : pyFindFrom s fence 0 = (j : Int) :=
    pyFindFrom_eq (by decide) hj2 (Nat.zero_le _)
      (fun i hi _ => hj3 i hi (Nat.zero_le _))
  have hjlen : j + 3 ≤ s.length := by
    have := occursAt_len (by decide) hj2
    simpa [fence] using this
  have hfe : pyFindFrom s fence (j + 3) = (e : Int) :=
    pyFindFrom_eq (by decide) he2 he1 he3
  have helen : e < s.length := occursAt_lt (by decide) he2
  rw [extract, if_neg (by rw [hfnoj]; omega),
    if_pos (show (0 : Int) ≤ pyFindFrom s fence 0 by
      rw [hfj]; exact Int.ofNat_nonneg j)]
  simp only [hfj]
  have ht : ((j : Int) + 3).toNat = j + 3 := by omega
  rw [ht, hfe]
  have hc : ((j : Int) + 3) = ((j + 3 : Nat) : Int) := by omega
  rw [hc, pySlice_nonneg hjlen (by omega)]

/-- Third ordered check: no fence at all — the reply is returned
trimmed. -/
theorem extract_clean {s : List Char} (h : ∀ i, ¬ occursAt s fence i) :
    extract s = pyStrip s := by
  have hnoj : ∀ i, ¬ occursAt s fenceJson i :=
    fun i hi => h i (occursAt_fence_of_fenceJson hi)
  have h1 : pyFindFrom s fenceJson 0 = -1 :=
    pyFindFrom_neg (by decide) (fun i _ => hnoj i)
  have h2 : pyFindFrom s fence 0 = -1 :=
    pyFindFrom_neg (by decide) (fun i _ => h i)
  rw [extract, if_neg (by rw [h1]; omega), if_neg (by rw [h2]; omega)]

/-- Tagged fence with no closing delimiter: `find` returns `-1`, the
slice end `-1` drops the reply's final character. -/
theorem extract_truncated {s : List Char} {j : Nat}
    (hj : firstOccurFrom s fenceJson 0 j)
    (hne : ∀ i, j + 7 ≤ i → ¬ occursAt s fence i) :
    extract s = pyStrip ((s.take (s.length - 1)).drop (j + 7)) := by
  obtain ⟨-, hj2, hj3⟩ := hj
  have hfj : pyFindFrom s fenceJson 0 = (j : Int) :=
    pyFindFrom_eq (by decide) hj2 (Nat.zero_le _)
      (fun i hi _ => hj3 i hi (Nat.zero_le _))
  have hjlen : j + 7 ≤ s.length := by
    have := occursAt_len (by decide) hj2
    simpa [fenceJson] using this
  have hs0 : s ≠ [] := by
    intro hnil
    rw [hnil] at hjlen
    simp at hjlen
  have hfe : pyFindFrom s fence (j + 7) = -1 :=
    pyFindFrom_neg (by decide) hne
  rw [extract,
    if_pos (show (0 : Int) ≤ pyFindFrom s fenceJson 0 by
      rw [hfj]; exact Int.ofNat_nonneg j)]
  simp only [hfj]
  have ht : ((j : Int) + 7).toNat = j + 7 := by omega
  rw [ht, hfe]
  have hc : ((j : Int) + 7) = ((j + 7 : Nat) : Int) := by omega
  rw [hc, pySlice_neg_one hjlen hs0]

/-! ### Strip lemmas -/

/-- The stripped string sits inside the original. -/
theorem pyStrip_decomp (s : List Char) : ∃ u w, s = u ++ pyStrip s ++ w := by
  obtain ⟨w, hw⟩ := List.rdropWhile_prefix pyIsSpace (s.dropWhile pyIsSpace)
  refine ⟨s.takeWhile pyIsSpace, w, ?_⟩
  conv_lhs => rw [← List.takeWhile_append_dropWhile pyIsSpace s]
  rw [← hw, pyStrip, List.append_assoc]

/-- Stripping never creates an occurrence of a needle. -/
theorem noOccur_pyStrip {s sub : List Char} (hsub : sub ≠ [])
    (h : ∀ i, ¬ occursAt s sub i) : ∀ i, ¬ occursAt (pyStrip s) sub i := by
  intro i hi
  obtain ⟨u, w, hs⟩ := pyStrip_decomp s
  rw [occursAt, prefB_iff] at hi
  obtain ⟨w2, hw2⟩ := hi
  apply h (u.length + i)
  rw [occursAt, prefB_iff]
  refine ⟨w2 ++ w, ?_⟩
  have hib : i < (pyStrip s).length :=
    occursAt_lt hsub (by rw [occursAt, prefB_iff]; exact ⟨w2, hw2⟩)
  calc s.drop (u.length + i)
      = ((u ++ pyStrip s) ++ w).drop (u.length + i) := by rw [← hs]
    _ = (u ++ (pyStrip s ++ w)).drop (u.length + i) := by rw [List.append_assoc]
    _ = (pyStrip s ++ w).drop i := List.drop_append i
    _ = (pyStrip s).drop i ++ w := List.drop_append_of_le_length (by omega)
    _ = (sub ++ w2) ++ w := by rw [hw2]
    _ = sub ++ (w2 ++ w) := by rw [List.append_assoc]

/-- Stripping is idempotent. -/
theorem pyStrip_idem (s : List Char) : pyStrip (pyStrip s) = pyStrip s := by
  have ht : List.dropWhile pyIsSpace (List.dropWhile pyIsSpace s) =
      List.dropWhile pyIsSpace s := List.dropWhile_idempotent _ _
  have hd : List.dropWhile pyIsSpace (pyStrip s) = pyStrip s := by
    obtain ⟨w, hw⟩ := List.rdropWhile_prefix pyIsSpace (s.dropWhile pyIsSpace)
    cases hu : pyStrip s with
    | nil => simp
    | cons c u' =>
      have h1 : List.rdropWhile pyIsSpace (List.dropWhile pyIsSpace s) =
          c :: u' := hu
      have hth : List.dropWhile pyIsSpace s = c :: (u' ++ w) := by
        rw [← hw, h1]
        rfl
      have hc : pyIsSpace c = false := by
        cases hb : pyIsSpace c
        · rfl
        · exfalso
          have h2 := ht
          rw [hth, List.dropWhile_cons, if_pos hb] at h2
          have hle := congrArg List.length h2
          have hdl : (List.dropWhile pyIsSpace (u' ++ w)).length ≤
              (u' ++ w).length := (List.dropWhile_suffix pyIsSpace).length_le
          simp only [List.length_cons, List.length_append] at hle hdl
          omega
      rw [List.dropWhile_cons, if_neg (by simp [hc])]
  calc pyStrip (pyStrip s)
      = List.rdropWhile pyIsSpace (List.dropWhile pyIsSpace (pyStrip s)) := rfl
    _ = List.rdropWhile pyIsSpace (pyStrip s) := by rw [hd]
    _ = List.rdropWhile pyIsSpace
          (List.rdropWhile pyIsSpace (List.dropWhile pyIsSpace s)) := rfl
    _ = List.rdropWhile pyIsSpace (List.dropWhile pyIsSpace s) :=
          List.rdropWhile_idempotent _ _
    _ = pyStrip s := rfl

/-! ### Pipeline-level helper lemmas -/

/-- Lookup in a body dict. -/
def dictGet (v : PyVal) (k : List Char) : Option PyVal :=
  match v with
  | .dict kvs => assocGet kvs k
  | _ => Option.none

/-- A needle that never occurs inside the string never occurs at all
(indices past the end cannot host a nonempty needle). -/
theorem noOccurFrom_of_bounded {s sub : List Char} {a : Nat} (hsub : sub ≠ [])
    (h : ∀ i, i < s.length → a ≤ i → ¬ occursAt s sub i) :
    ∀ i, a ≤ i → ¬ occursAt s sub i := by
  intro i hai hi
  rcases Nat.lt_or_ge i s.length with hlt | hge
  · exact h i hlt hai hi
  · have := occursAt_lt hsub hi
    omega

/-- Bounded check suffices for total absence of a nonempty needle. -/
theorem noOccur_of_bounded {s sub : List Char} (hsub : sub ≠ [])
    (h : ∀ i, i < s.length → ¬ occursAt s sub i) : ∀ i, ¬ occursAt s sub i :=
  fun i => noOccurFrom_of_bounded (a := 0) hsub
    (fun j hj _ => h j hj) i (Nat.zero_le i)

/-- The generator calls the model at most once (no retries). -/
theorem gen_calls_le (invoke : List Char → Except PyError (List Char))
    (wt : List PyVal) (lvl : List Char) :
    (generate_learning_roadmap invoke wt lvl).2 ≤ 1 := by
  cases hbp : build_prompt wt lvl with
  | error e => simp [generate_learning_roadmap, hbp]
  | ok prompt =>
    cases hi : invoke prompt with
    | error e => simp [generate_learning_roadmap, hbp, hi]
    | ok ai => simp [generate_learning_roadmap, hbp, hi]

/-- A successful generation comes from a built prompt, a successful
invocation, and a successful parse of the reply. -/
theorem gen_ok_inv {invoke : List Char → Except PyError (List Char)}
    {wt : List PyVal} {lvl : List Char} {v : PyVal} {n : Nat}
    (h : generate_learning_roadmap invoke wt lvl = (.ok v, n)) :
    ∃ prompt ai, build_prompt wt lvl = .ok prompt ∧ invoke prompt = .ok ai ∧
      parse_ai_response ai = .ok v ∧ n = 1 := by
  cases hbp : build_prompt wt lvl with
  | error e =>
    rw [generate_learning_roadmap] at h
    simp only [hbp] at h
    simp at h
  | ok prompt =>
    rw [generate_learning_roadmap] at h
    simp only [hbp] at h
    cases hi : invoke prompt with
    | error e =>
      simp only [hi] at h
      simp at h
    | ok ai =>
      simp only [hi] at h
      have h1 := congrArg Prod.fst h
      have h2 := congrArg Prod.snd h
      exact ⟨prompt, ai, rfl, hi, h1, h2.symm⟩

/-- A successful validation yields exactly the parsed value, and the
parsed value passed the Python membership check for `'roadmap'`. -/
theorem validate_ok_inv {c : List Char} {v : PyVal}
    (h : validate_candidate c = .ok v) :
    json_loads c = .ok v ∧ pyIn roadmapKey v = .ok true := by
  cases hj : json_loads c with
  | error e =>
    rw [validate_candidate] at h
    simp only [hj] at h
    cases e <;> simp at h
  | ok v' =>
    rw [validate_candidate] at h
    simp only [hj] at h
    cases hp : pyIn roadmapKey v' with
    | error e2 =>
      simp only [hp] at h
      simp at h
    | ok b =>
      simp only [hp] at h
      cases b
      · simp at h
      · simp at h
        exact ⟨by rw [h], h ▸ hp⟩

/-- Every user level is one of the three tiers. -/
theorem dul_mem (q : Rat) :
    determine_user_level q = "Beginner".toList ∨
    determine_user_level q = "Intermediate".toList ∨
    determine_user_level q = "Advanced".toList := by
  rw [determine_user_level]
  split_ifs <;> simp

/-- Orchestrator shape: falsy `weak_topics` short-circuits to the 400
envelope with zero model calls. -/
theorem handler_invalid_empty {invoke : List Char → Except PyError (List Char)}
    {now : List Char} {event : List (List Char × PyVal)}
    (h1 : pyTruthy (eventWeakTopics event) = false) :
    lambda_handler invoke now event = (error_response 400 emptyWkMsg now, 0) := by
  rw [lambda_handler]
  simp [h1]

/-- Orchestrator shape: truthy non-list `weak_topics` yields the 400
envelope with zero model calls. -/
theorem handler_invalid_type {invoke : List Char → Except PyError (List Char)}
    {now : List Char} {event : List (List Char × PyVal)}
    (h1 : pyTruthy (eventWeakTopics event) = true)
    (h2 : isListVal (eventWeakTopics event) = false) :
    lambda_handler invoke now event = (error_response 400 notListMsg now, 0) := by
  rw [lambda_handler]
  simp [h1, h2]

/-- Orchestrator shape: non-numeric `total_solved` yields the 400
envelope with zero model calls. -/
theorem handler_invalid_num {invoke : List Char → Except PyError (List Char)}
    {now : List Char} {event : List (List Char × PyVal)}
    (h1 : pyTruthy (eventWeakTopics event) = true)
    (h2 : isListVal (eventWeakTopics event) = true)
    (h3 : isNumeric (eventTotalSolved event) = false) :
    lambda_handler invoke now event = (error_response 400 notNumMsg now, 0) := by
  rw [lambda_handler]
  simp [h1, h2, h3]

/-- Orchestrator shape: validated input and successful generation give
the 200 body with the level, the echoed inputs, the roadmap and the
timestamp. -/
theorem handler_validated_ok {invoke : List Char → Except PyError (List Char)}
    {now : List Char} {event : List (List Char × PyVal)} {v : PyVal} {n : Nat}
    (h1 : pyTruthy (eventWeakTopics event) = true)
    (h2 : isListVal (eventWeakTopics event) = true)
    (h3 : isNumeric (eventTotalSolved event) = true)
    (hg : generate_learning_roadmap invoke (listItems (eventWeakTopics event))
        (determine_user_level (numToRat (eventTotalSolved event))) = (.ok v, n)) :
    lambda_handler invoke now event = (⟨200, .dict
        [("message".toList, .str successMsg),
         ("user_level".toList,
            .str (determine_user_level (numToRat (eventTotalSolved event)))),
         ("total_solved".toList, eventTotalSolved event),
         (wkKey, eventWeakTopics event),
         (roadmapKey, v),
         ("generated_at".toList, .str now)]⟩, n) := by
  rw [lambda_handler]
  simp [h1, h2, h3, hg]

/-- Orchestrator shape: validated input and a raised exception give the
catch-all 500 envelope carrying the exception's message. -/
theorem handler_validated_err {invoke : List Char → Except PyError (List Char)}
    {now : List Char} {event : List (List Char × PyVal)} {e : PyError} {n : Nat}
    (h1 : pyTruthy (eventWeakTopics event) = true)
    (h2 : isListVal (eventWeakTopics event) = true)
    (h3 : isNumeric (eventTotalSolved event) = true)
    (hg : generate_learning_roadmap invoke (listItems (eventWeakTopics event))
        (determine_user_level (numToRat (eventTotalSolved event))) = (.error e, n)) :
    lambda_handler invoke now event =
      (error_response 500 (internalPrefix ++ e.msg) now, n) := by
  rw [lambda_handler]
  simp [h1, h2, h3, hg]

/-! ### The claims -/

/-- Claim C1: for every input event whose `weak_topics` is an empty or absent
sequence, the pipeline returns the `ValidationError` envelope with
status code 400 and the ModelInvoker is never called (zero invocations,
under every invoker and clock). -/
theorem claim1_empty_weak_topics (invoke : List Char → Except PyError (List Char))
    (now : List Char) (event : List (List Char × PyVal))
    (h : assocGet event wkKey = Option.none ∨ assocGet event wkKey = some (.list [])) :
    lambda_handler invoke now event = (error_response 400 emptyWkMsg now, 0) ∧
    (lambda_handler invoke now event).1.statusCode = 400 ∧
    (lambda_handler invoke now event).2 = 0 := by
  have hwt : eventWeakTopics event = .list [] := by
    rw [eventWeakTopics]
    rcases h with h | h <;> rw [h] <;> rfl
  have hmain : lambda_handler invoke now event = (error_response 400 emptyWkMsg now, 0) := by
    rw [lambda_handler]
    simp only [hwt]
    rfl
  exact ⟨hmain, by rw [hmain]; rfl, by rw [hmain]⟩

/-- Witness for C1 at a concrete event with an explicitly empty
`weak_topics` list. -/
theorem claim1_empty_weak_topics_witness :
    lambda_handler goodInvoke ts0 evEmptyWk = (error_response 400 emptyWkMsg ts0, 0) ∧
    (lambda_handler goodInvoke ts0 evEmptyWk).1.statusCode = 400 ∧
    (lambda_handler goodInvoke ts0 evEmptyWk).2 = 0 :=
  claim1_empty_weak_topics goodInvoke ts0 evEmptyWk (Or.inr rfl)

/-- Claim C2: the classifier `determine_user_level` returns Beginner below 50, Intermediate
on `[50, 200)`, Advanced at or above 200; the boundaries 49/50/199/200
classify as stated and every negative count is Beginner. -/
theorem claim2_user_level :
    (∀ q : Rat,
      (q < 50 → determine_user_level q = "Beginner".toList) ∧
      (50 ≤ q → q < 200 → determine_user_level q = "Intermediate".toList) ∧
      (200 ≤ q → determine_user_level q = "Advanced".toList) ∧
      (q < 0 → determine_user_level q = "Beginner".toList)) ∧
    determine_user_level 49 = "Beginner".toList ∧
    determine_user_level 50 = "Intermediate".toList ∧
    determine_user_level 199 = "Intermediate".toList ∧
    determine_user_level 200 = "Advanced".toList := by
  refine ⟨fun q => ⟨?_, ?_, ?_, ?_⟩, by norm_num [determine_user_level],
    by norm_num [determine_user_level], by norm_num [determine_user_level],
    by norm_num [determine_user_level]⟩
  · intro h
    rw [determine_user_level, if_pos h]
  · intro h1 h2
    rw [determine_user_level, if_neg (by linarith), if_pos h2]
  · intro h
    rw [determine_user_level, if_neg (by linarith), if_neg (by linarith)]
  · intro h
    rw [determine_user_level, if_pos (by linarith)]

/-- Witness for C2 at the concrete negative input `-7`. -/
theorem claim2_user_level_witness :
    determine_user_level (-7) = "Beginner".toList :=
  ((claim2_user_level.1 (-7)).2.2.2) (by norm_num)

/-- Claim C3: the extractor performs the ordered checks with the first match
winning: with a tagged fence present, the text between the end of the
first tagged delimiter and the first closing delimiter after it,
trimmed; else with any fence present, the text between the end of the
first delimiter and the next delimiter occurrence, trimmed; else the
whole reply trimmed.  The closing delimiter used is always the first
occurrence after the opening one (no nesting awareness). -/
theorem claim3_extraction_ordered (s : List Char) :
    (∀ j e : Nat, firstOccurFrom s fenceJson 0 j →
       firstOccurFrom s fence (j + 7) e →
       extract s = pyStrip ((s.take e).drop (j + 7))) ∧
    ((∀ i, ¬ occursAt s fenceJson i) →
       ∀ j e : Nat, firstOccurFrom s fence 0 j →
         firstOccurFrom s fence (j + 3) e →
         extract s = pyStrip ((s.take e).drop (j + 3))) ∧
    ((∀ i, ¬ occursAt s fence i) → extract s = pyStrip s) :=
  ⟨fun _ _ hj he => extract_tagged hj he,
   fun hno _ _ hj he => extract_untagged hno hj he,
   extract_clean⟩

/-- Witness for C3 on a concrete tagged-fenced reply: the tagged
delimiter first occurs at 6, the closing delimiter first occurs at 30,
and extraction takes the trimmed text between indices 13 and 30. -/
theorem claim3_extraction_ordered_witness :
    extract fencedReply = pyStrip ((fencedReply.take 30).drop 13) :=
  (claim3_extraction_ordered fencedReply).1 6 30 (by decide) (by decide)

/-- Claim C9: on a reply with no fence delimiter, extraction strips the
surrounding whitespace, and extraction is idempotent. -/
theorem claim9_extract_idempotent (s : List Char)
    (h : ∀ i, ¬ occursAt s fence i) :
    extract s = pyStrip s ∧ extract (extract s) = extract s := by
  have h1 := extract_clean h
  refine ⟨h1, ?_⟩
  have h2 : ∀ i, ¬ occursAt (pyStrip s) fence i :=
    noOccur_pyStrip (by decide) h
  rw [h1, extract_clean h2, pyStrip_idem]

/-- Witness for C9 on a concrete fence-free reply. -/
theorem claim9_extract_idempotent_witness :
    extract cleanReply = pyStrip cleanReply ∧
    extract (extract cleanReply) = extract cleanReply :=
  claim9_extract_idempotent cleanReply
    (noOccur_of_bounded (by decide) (by decide))

/-- Claim C10: with a tagged opening delimiter at first index `j` and no
closing delimiter after it, `find` returns the sentinel `-1`, used as
the slice end, so the candidate is the text from just after the tag up
to but excluding the final character, trimmed — and this truncated
candidate is what reaches validation. -/
theorem claim10_truncated_candidate (s : List Char) (j : Nat)
    (hj : firstOccurFrom s fenceJson 0 j)
    (hne : ∀ i, j + 7 ≤ i → ¬ occursAt s fence i) :
    extract s = pyStrip ((s.take (s.length - 1)).drop (j + 7)) ∧
    parse_ai_response s =
      validate_candidate (pyStrip ((s.take (s.length - 1)).drop (j + 7))) := by
  have h1 := extract_truncated hj hne
  exact ⟨h1, by rw [parse_ai_response, h1]⟩

/-- Witness for C10 on a concrete reply whose tagged fence is never
closed: the final `}` of the payload is silently dropped. -/
theorem claim10_truncated_candidate_witness :
    extract unclosedReply =
      pyStrip ((unclosedReply.take (unclosedReply.length - 1)).drop 7) ∧
    parse_ai_response unclosedReply =
      validate_candidate
        (pyStrip ((unclosedReply.take (unclosedReply.length - 1)).drop 7)) :=
  claim10_truncated_candidate unclosedReply 0 (by decide)
    (noOccurFrom_of_bounded (by decide) (by decide))

/-- Counterexample for C4: the candidate `"roadmap"` (a JSON string
literal) parses to a Python string, which is not a keyed structure,
yet validation succeeds, because Python's `'roadmap' in` on a string is
a substring test.  The claim says validation must fail in this case. -/
theorem claim4_validation_cex :
    json_loads strReply = .ok (.str roadmapChars) ∧
    validate_candidate strReply = .ok (.str roadmapChars) ∧
    isKeyed (.str roadmapChars) = false :=
  ⟨rfl, rfl, rfl⟩

/-- Claim C4 as amended: validation fails exactly when the candidate does not
parse as well-formed JSON (a `MalformedResponse`-style `ValueError`),
or the parsed value fails Python's `in` containment test for
`'roadmap'` (key lookup for keyed structures, element equality for
arrays, substring search for strings — failing with the
missing-field `ValueError`; numbers, booleans and null raise a
`TypeError` that escapes as a generic error instead).  A parsed value
that passes the containment test is returned unchanged — even when it
is not a keyed structure — with no deeper field-level validation: a
value whose `roadmap` field is an empty array still succeeds. -/
theorem claim4_validation (c : List Char) :
    (∀ m, json_loads c = .error (.jsonDecodeError m) →
       validate_candidate c =
         .error (.valueError (("Invalid JSON response from AI: ").toList ++ m))) ∧
    (∀ v, json_loads c = .ok v →
       (pyIn roadmapKey v = .ok true → validate_candidate c = .ok v) ∧
       (pyIn roadmapKey v = .ok false →
          validate_candidate c =
            .error (.valueError ("Response missing 'roadmap' field".toList))) ∧
       (∀ e2, pyIn roadmapKey v = .error e2 →
          validate_candidate c = .error e2)) ∧
    validate_candidate goodReply = .ok (.dict [(roadmapKey, .list [])]) := by
  refine ⟨?_, ?_, rfl⟩
  · intro m hm
    rw [validate_candidate]
    simp only [hm]
  · intro v hv
    refine ⟨?_, ?_, ?_⟩
    · intro hp
      rw [validate_candidate]
      simp only [hv, hp]
    · intro hp
      rw [validate_candidate]
      simp only [hv, hp]
    · intro e2 hp
      rw [validate_candidate]
      simp only [hv, hp]

/-- Witness for C4 on the concrete string-literal candidate, following
the success-by-substring branch of the amended claim. -/
theorem claim4_validation_witness :
    validate_candidate strReply = .ok (.str roadmapChars) :=
  ((claim4_validation strReply).2.1 (.str roadmapChars) rfl).1 rfl

/-- Counterexample for C5: an event with valid `weak_topics` but no
`total_solved` key is not rejected — the pipeline proceeds (the model
is invoked once) and returns 200, against the claim that an absent
`total_solved` yields a 400 `ValidationError`. -/
theorem claim5_total_solved_cex :
    assocGet evNoTotal tsKey = Option.none ∧
    (lambda_handler goodInvoke ts0 evNoTotal).1.statusCode = 200 ∧
    (lambda_handler goodInvoke ts0 evNoTotal).2 = 1 :=
  ⟨rfl, rfl, rfl⟩

/-- Claim C5 as amended: the field `total_solved` is optional.  When the key is present
with a non-numeric value (and `weak_topics` passes its checks), the
pipeline rejects with the 400 `ValidationError` envelope before any
model call; when the key is absent it defaults to `0` and the pipeline
behaves exactly as if `total_solved = 0` had been supplied. -/
theorem claim5_total_solved (invoke : List Char → Except PyError (List Char))
    (now : List Char) (event : List (List Char × PyVal))
    (hwt1 : pyTruthy (eventWeakTopics event) = true)
    (hwt2 : isListVal (eventWeakTopics event) = true) :
    (∀ v, assocGet event tsKey = some v → isNumeric v = false →
       lambda_handler invoke now event = (error_response 400 notNumMsg now, 0)) ∧
    (assocGet event tsKey = Option.none →
       eventTotalSolved event = .int 0 ∧
       lambda_handler invoke now event =
         lambda_handler invoke now ((tsKey, .int 0) :: event)) := by
  constructor
  · intro v hv hnum
    have hts : eventTotalSolved event = v := by
      rw [eventTotalSolved, hv]
      rfl
    exact handler_invalid_num hwt1 hwt2 (by rw [hts]; exact hnum)
  · intro h
    have hts0 : eventTotalSolved event = .int 0 := by
      rw [eventTotalSolved, h]
      rfl
    refine ⟨hts0, ?_⟩
    have e1 : eventWeakTopics ((tsKey, .int 0) :: event) = eventWeakTopics event :=
      rfl
    have e2 : eventTotalSolved ((tsKey, .int 0) :: event) = PyVal.int 0 := rfl
    rw [lambda_handler, lambda_handler, e1, e2, hts0]

/-- Witness for C5: a present but non-numeric `total_solved` is
rejected with the 400 envelope and no model call. -/
theorem claim5_total_solved_witness :
    lambda_handler goodInvoke ts0 evBadTotal =
      (error_response 400 notNumMsg ts0, 0) :=
  (claim5_total_solved goodInvoke ts0 evBadTotal rfl rfl).1
    (.str ("many".toList)) rfl rfl

/-- Counterexample for C6: when the model replies with the JSON string
literal `"roadmap"`, the pipeline returns a 200 success whose roadmap
is that bare string — parsed structured data, but with no top-level
`roadmap` field (it is not a keyed structure), against the claim. -/
theorem claim6_roadmap_integrity_cex :
    (lambda_handler badInvoke ts0 ev150).1.statusCode = 200 ∧
    dictGet (lambda_handler badInvoke ts0 ev150).1.body roadmapKey =
      some (.str roadmapChars) ∧
    isKeyed (.str roadmapChars) = false :=
  ⟨rfl, rfl, rfl⟩

/-- Claim C6 as amended: the pipeline never returns a partial or corrupt
roadmap: every success (status 200) carries a roadmap that is exactly
the value parsed by `json.loads` from some candidate string and that
passed Python's `'roadmap' in` containment check (a top-level
`roadmap` key when the value is a keyed structure, an element or
substring occurrence otherwise); every non-success response carries no
roadmap field at all. -/
theorem claim6_roadmap_integrity (invoke : List Char → Except PyError (List Char))
    (now : List Char) (event : List (List Char × PyVal)) :
    ((lambda_handler invoke now event).1.statusCode = 200 →
       ∃ c v, json_loads c = .ok v ∧ pyIn roadmapKey v = .ok true ∧
         dictGet (lambda_handler invoke now event).1.body roadmapKey = some v) ∧
    ((lambda_handler invoke now event).1.statusCode ≠ 200 →
       dictGet (lambda_handler invoke now event).1.body roadmapKey =
         Option.none) := by
  cases h1 : pyTruthy (eventWeakTopics event) with
  | false =>
    rw [handler_invalid_empty h1]
    exact ⟨fun hc => absurd hc (by simp [error_response]), fun _ => rfl⟩
  | true =>
    cases h2 : isListVal (eventWeakTopics event) with
    | false =>
      rw [handler_invalid_type h1 h2]
      exact ⟨fun hc => absurd hc (by simp [error_response]), fun _ => rfl⟩
    | true =>
      cases h3 : isNumeric (eventTotalSolved event) with
      | false =>
        rw [handler_invalid_num h1 h2 h3]
        exact ⟨fun hc => absurd hc (by simp [error_response]), fun _ => rfl⟩
      | true =>
        rcases hg : generate_learning_roadmap invoke
            (listItems (eventWeakTopics event))
            (determine_user_level (numToRat (eventTotalSolved event)))
          with ⟨res, n⟩
        cases res with
        | ok v =>
          rw [handler_validated_ok h1 h2 h3 hg]
          refine ⟨fun _ => ?_, fun hc => absurd rfl hc⟩
          obtain ⟨prompt, ai, hbp, hi, hpar, hn⟩ := gen_ok_inv hg
          obtain ⟨hjl, hin⟩ := validate_ok_inv hpar
          exact ⟨extract ai, v, hjl, hin, rfl⟩
        | error e =>
          rw [handler_validated_err h1 h2 h3 hg]
          exact ⟨fun hc => absurd hc (by simp [error_response]), fun _ => rfl⟩

/-- Witness for C6: the success branch of the integrity statement on a
concrete good run. -/
theorem claim6_roadmap_integrity_witness :
    ∃ c v, json_loads c = .ok v ∧ pyIn roadmapKey v = .ok true ∧
      dictGet (lambda_handler goodInvoke ts0 ev150).1.body roadmapKey = some v :=
  (claim6_roadmap_integrity goodInvoke ts0 ev150).1 rfl

/-- Claim C7: the model is invoked at most once (no stage retries), and every
exception raised after input validation is caught exactly once at the
orchestrator boundary: the pipeline returns the standardized envelope
with status code 500 and a timestamp, never a bare exception. -/
theorem claim7_error_envelope (invoke : List Char → Except PyError (List Char))
    (now : List Char) (event : List (List Char × PyVal)) :
    (lambda_handler invoke now event).2 ≤ 1 ∧
    (∀ e n,
      pyTruthy (eventWeakTopics event) = true →
      isListVal (eventWeakTopics event) = true →
      isNumeric (eventTotalSolved event) = true →
      generate_learning_roadmap invoke (listItems (eventWeakTopics event))
        (determine_user_level (numToRat (eventTotalSolved event))) =
          (.error e, n) →
      lambda_handler invoke now event =
        (error_response 500 (internalPrefix ++ e.msg) now, n) ∧
      (lambda_handler invoke now event).1.statusCode = 500 ∧
      dictGet (lambda_handler invoke now event).1.body ("timestamp".toList) =
        some (.str now)) := by
  constructor
  · cases h1 : pyTruthy (eventWeakTopics event) with
    | false => rw [handler_invalid_empty h1]; omega
    | true =>
      cases h2 : isListVal (eventWeakTopics event) with
      | false => rw [handler_invalid_type h1 h2]; omega
      | true =>
        cases h3 : isNumeric (eventTotalSolved event) with
        | false => rw [handler_invalid_num h1 h2 h3]; omega
        | true =>
          rcases hg : generate_learning_roadmap invoke
              (listItems (eventWeakTopics event))
              (determine_user_level (numToRat (eventTotalSolved event)))
            with ⟨res, n⟩
          have hn := gen_calls_le invoke (listItems (eventWeakTopics event))
            (determine_user_level (numToRat (eventTotalSolved event)))
          rw [hg] at hn
          cases res with
          | ok v => rw [handler_validated_ok h1 h2 h3 hg]; exact hn
          | error e => rw [handler_validated_err h1 h2 h3 hg]; exact hn
  · intro e n h1 h2 h3 hg
    have hh := @handler_validated_err invoke now event e n h1 h2 h3 hg
    exact ⟨hh, by rw [hh]; rfl, by rw [hh]; rfl⟩

/-- Witness for C7: a raising ModelInvoker on a valid event produces
the 500 envelope with the exception message and the timestamp. -/
theorem claim7_error_envelope_witness :
    lambda_handler failInvoke ts0 ev150 =
      (error_response 500 (internalPrefix ++ ("boom".toList)) ts0, 1) ∧
    (lambda_handler failInvoke ts0 ev150).1.statusCode = 500 ∧
    dictGet (lambda_handler failInvoke ts0 ev150).1.body ("timestamp".toList) =
      some (.str ts0) :=
  (claim7_error_envelope failInvoke ts0 ev150).2
    (.typeError ("boom".toList)) 1 rfl rfl rfl rfl

/-- Claim C8: on success the pipeline returns status 200 with the user level
(one of the three tiers), the input's `total_solved` and `weak_topics`
echoed unchanged, the validated roadmap unchanged, and the
`generated_at` timestamp. -/
theorem claim8_success_shape (invoke : List Char → Except PyError (List Char))
    (now : List Char) (event : List (List Char × PyVal)) (v : PyVal) (n : Nat)
    (h1 : pyTruthy (eventWeakTopics event) = true)
    (h2 : isListVal (eventWeakTopics event) = true)
    (h3 : isNumeric (eventTotalSolved event) = true)
    (hg : generate_learning_roadmap invoke (listItems (eventWeakTopics event))
        (determine_user_level (numToRat (eventTotalSolved event))) = (.ok v, n)) :
    lambda_handler invoke now event = (⟨200, .dict
        [("message".toList, .str successMsg),
         ("user_level".toList,
            .str (determine_user_level (numToRat (eventTotalSolved event)))),
         ("total_solved".toList, eventTotalSolved event),
         (wkKey, eventWeakTopics event),
         (roadmapKey, v),
         ("generated_at".toList, .str now)]⟩, n) ∧
    (determine_user_level (numToRat (eventTotalSolved event)) = "Beginner".toList ∨
     determine_user_level (numToRat (eventTotalSolved event)) = "Intermediate".toList ∨
     determine_user_level (numToRat (eventTotalSolved event)) = "Advanced".toList) ∧
    (∀ w, assocGet event tsKey = some w → eventTotalSolved event = w) ∧
    (∀ w, assocGet event wkKey = some w → eventWeakTopics event = w) := by
  refine ⟨handler_validated_ok h1 h2 h3 hg, dul_mem _, ?_, ?_⟩
  · intro w hw
    rw [eventTotalSolved, hw]
    rfl
  · intro w hw
    rw [eventWeakTopics, hw]
    rfl

/-- Witness for C8 on a concrete good run: status 200, Intermediate
level, echoed inputs, the parsed roadmap, and the timestamp. -/
theorem claim8_success_shape_witness :
    lambda_handler goodInvoke ts0 ev150 = (⟨200, .dict
        [("message".toList, .str successMsg),
         ("user_level".toList, .str ("Intermediate".toList)),
         ("total_solved".toList, .int 150),
         (wkKey, .list [.str ("Dynamic Programming".toList)]),
         (roadmapKey, .dict [(roadmapKey, .list [])]),
         ("generated_at".toList, .str ts0)]⟩, 1) ∧
    ("Intermediate".toList = "Beginner".toList ∨
     "Intermediate".toList = "Intermediate".toList ∨
     "Intermediate".toList = "Advanced".toList) ∧
    (∀ w, assocGet ev150 tsKey = some w → eventTotalSolved ev150 = w) ∧
    (∀ w, assocGet ev150 wkKey = some w → eventWeakTopics ev150 = w) :=
  claim8_success_shape goodInvoke ts0 ev150 (.dict [(roadmapKey, .list [])]) 1
    rfl rfl rfl rfl

end Bharat
